import Mathlib

/-!
Shallow embedding of the nesrs NES emulator core (src/hw/cpu.rs,
src/hw/cpu/opcodes.rs, src/hw/cpu/tracer.rs, src/hw/bus.rs, src/hw/ppu.rs)
in Lean 4.  Machine integers (u8, u16) are modelled as Nat with explicit
mod-2^8 / mod-2^16 arithmetic where the Rust code wraps; fallible Rust
operations (array indexing that can abort, unwrap, todo stubs) return
Option / Except.
-/

/-! ## CpuFlags (bitflags from cpu.rs) -/

namespace CpuFlags

def CARRY     : Nat := 0b00000001
def ZERO      : Nat := 0b00000010
def INTERRUPT : Nat := 0b00000100
def DECIMAL   : Nat := 0b00001000
def BREAK     : Nat := 0b00010000
def BIT5      : Nat := 0b00100000
def OVERFLOW  : Nat := 0b01000000
def NEGATIVE  : Nat := 0b10000000

/-- All defined flag bits together (bitflags `all()`); every bit of the u8 is
a named flag, so this mask is 0xFF. -/
def ALL : Nat := 0xFF

/-- bitflags `from_bits`: `Some` exactly when no bit outside the defined set
is set.  All 8 bits are defined, so the mask is 0xFF. -/
def from_bits (b : Nat) : Option Nat :=
  if b &&& ALL = b then some b else none

end CpuFlags

/-- bitflags `insert`: set the given flag bits. -/
def flagInsert (s f : Nat) : Nat := s ||| f

/-- bitflags `remove`: clear the given flag bits (u8 complement of the flag). -/
def flagRemove (s f : Nat) : Nat := s &&& (0xFF ^^^ f)

/-- bitflags `contains` for a flag set `f`. -/
def flagContains (s f : Nat) : Bool := s &&& f = f

/-! ## CPU state (cpu.rs) -/

def STACK_PAGE : Nat := 0x0100
def STACK_START : Nat := 0xff

structure CPU where
  register_a : Nat
  register_x : Nat
  register_y : Nat
  status : Nat
  stack_pointer : Nat
  program_counter : Nat
  memory : Nat → Nat

inductive AddressingMode where
  | Immediate
  | ZeroPage
  | ZeroPageX
  | ZeroPageY
  | Absolute
  | AbsoluteX
  | AbsoluteY
  | IndirectX
  | IndirectY
  | Implicit
deriving DecidableEq

/-- `CPU::new()`. -/
def CPU.new : CPU :=
  { register_a := 0, register_x := 0, register_y := 0, status := 0,
    stack_pointer := 0, program_counter := 0, memory := fun _ => 0 }

/-- `memory: [u8; 0xFFFF]` read: the array holds exactly 0xFFFF bytes, so an
index at or above 0xFFFF aborts (modelled as `none`). -/
def CPU.mem_read (s : CPU) (addr : Nat) : Option Nat :=
  if addr < 0xFFFF then some (s.memory addr) else none

/-- `memory` write with the same 0xFFFF bound. -/
def CPU.mem_write (s : CPU) (addr data : Nat) : Option CPU :=
  if addr < 0xFFFF then
    some { s with memory := fun a => if a = addr then data else s.memory a }
  else none

/-- `mem_read_u16`: little-endian 16-bit read of `addr` and `addr + 1`. -/
def CPU.mem_read_u16 (s : CPU) (addr : Nat) : Option Nat := do
  let lo ← s.mem_read addr
  let hi ← s.mem_read (addr + 1)
  pure ((hi <<< 8) ||| lo)

/-- `mem_write_u16`: low byte at `addr`, high byte at `addr + 1`. -/
def CPU.mem_write_u16 (s : CPU) (addr data : Nat) : Option CPU := do
  let hi := data >>> 8
  let lo := data &&& 0xFF
  let s ← s.mem_write addr lo
  s.mem_write (addr + 1) hi

/-- `stack_push`: write at `STACK_PAGE + sp`, then `sp = sp.wrapping_sub(1)`. -/
def CPU.stack_push (s : CPU) (data : Nat) : Option CPU :=
  (s.mem_write (STACK_PAGE + s.stack_pointer) data).map fun s' =>
    { s' with stack_pointer := (s'.stack_pointer + 255) % 256 }

/-- `stack_pop`: `sp = sp.wrapping_add(1)`, then read at `STACK_PAGE + sp`. -/
def CPU.stack_pop (s : CPU) : Option (Nat × CPU) :=
  let sp := (s.stack_pointer + 1) % 256
  (s.mem_read (STACK_PAGE + sp)).map fun v => (v, { s with stack_pointer := sp })

/-- First if-block of `update_z_and_n_flags`: the Zero flag. -/
def CPU.update_z_flag (s : CPU) (result : Nat) : CPU :=
  if result = 0 then { s with status := flagInsert s.status CpuFlags.ZERO }
  else { s with status := flagRemove s.status CpuFlags.ZERO }

/-- Second if-block of `update_z_and_n_flags`: the Negative flag. -/
def CPU.update_n_flag (s : CPU) (result : Nat) : CPU :=
  if result &&& 0b10000000 ≠ 0 then
    { s with status := flagInsert s.status CpuFlags.NEGATIVE }
  else
    { s with status := flagRemove s.status CpuFlags.NEGATIVE }

/-- `update_z_and_n_flags`: the two if-blocks in source order. -/
def CPU.update_z_and_n_flags (s : CPU) (result : Nat) : CPU :=
  (s.update_z_flag result).update_n_flag result

/-- `get_operand_address`; the `Implicit` arm aborts in the source
(modelled as `none`).  u8/u16 wrapping adds are mod 256 / mod 65536. -/
def CPU.get_operand_address (s : CPU) (mode : AddressingMode) : Option Nat :=
  match mode with
  | .Immediate => some s.program_counter
  | .ZeroPage => s.mem_read s.program_counter
  | .Absolute => s.mem_read_u16 s.program_counter
  | .ZeroPageX =>
    (s.mem_read s.program_counter).map fun pos => (pos + s.register_x) % 256
  | .ZeroPageY =>
    (s.mem_read s.program_counter).map fun pos => (pos + s.register_y) % 256
  | .AbsoluteX =>
    (s.mem_read_u16 s.program_counter).map fun base => (base + s.register_x) % 65536
  | .AbsoluteY =>
    (s.mem_read_u16 s.program_counter).map fun base => (base + s.register_y) % 65536
  | .IndirectX => do
    let base ← s.mem_read s.program_counter
    let ptr := (base + s.register_x) % 256
    let lo ← s.mem_read ptr
    let hi ← s.mem_read ((ptr + 1) % 256)
    pure ((hi <<< 8) ||| lo)
  | .IndirectY => do
    let base ← s.mem_read s.program_counter
    let lo ← s.mem_read base
    let hi ← s.mem_read ((base % 256 + 1) % 256)
    pure ((((hi <<< 8) ||| lo) + s.register_y) % 65536)
  | .Implicit => none

/-- `get_operand_value`. -/
def CPU.get_operand_value (s : CPU) (mode : AddressingMode) : Option Nat := do
  let address ← s.get_operand_address mode
  s.mem_read address

/-- `load`: copy the program into memory at 0x8000 (`copy_from_slice` aborts
when the slice does not fit) and write the reset vector. -/
def copyIntoMem (m : Nat → Nat) (start : Nat) : List Nat → (Nat → Nat)
  | [] => m
  | d :: rest => copyIntoMem (fun a => if a = start then d else m a) (start + 1) rest

def CPU.load (s : CPU) (program : List Nat) : Option CPU :=
  if 0x8000 + program.length ≤ 0xFFFF then
    ({ s with memory := copyIntoMem s.memory 0x8000 program }).mem_write_u16 0xFFFC 0x8000
  else none

/-- `reset()`: clear A, X, Y, set status to the empty flag set, set the stack
pointer to `STACK_START` (0xFF), and load PC from the vector at 0xFFFC. -/
def CPU.reset (s : CPU) : Option CPU := do
  let s := { s with register_a := 0, register_x := 0, register_y := 0,
                    status := 0, stack_pointer := STACK_START }
  let pc ← s.mem_read_u16 0xFFFC
  pure { s with program_counter := pc }

/-! ## Opcode implementations (cpu.rs) -/

def CPU.lda (s : CPU) (mode : AddressingMode) : Option CPU :=
  (s.get_operand_value mode).map fun param =>
    CPU.update_z_and_n_flags { s with register_a := param } param

def CPU.ldx (s : CPU) (mode : AddressingMode) : Option CPU :=
  (s.get_operand_value mode).map fun param =>
    CPU.update_z_and_n_flags { s with register_x := param } param

def CPU.ldy (s : CPU) (mode : AddressingMode) : Option CPU :=
  (s.get_operand_value mode).map fun param =>
    CPU.update_z_and_n_flags { s with register_y := param } param

def CPU.tax (s : CPU) (_ : AddressingMode) : CPU :=
  CPU.update_z_and_n_flags { s with register_x := s.register_a } s.register_a

def CPU.tay (s : CPU) (_ : AddressingMode) : CPU :=
  CPU.update_z_and_n_flags { s with register_y := s.register_a } s.register_a

def CPU.tsx (s : CPU) (_ : AddressingMode) : CPU :=
  CPU.update_z_and_n_flags { s with register_x := s.stack_pointer } s.stack_pointer

def CPU.txa (s : CPU) (_ : AddressingMode) : CPU :=
  CPU.update_z_and_n_flags { s with register_a := s.register_x } s.register_x

def CPU.txs (s : CPU) (_ : AddressingMode) : CPU :=
  CPU.update_z_and_n_flags { s with stack_pointer := s.register_x } s.register_x

def CPU.tya (s : CPU) (_ : AddressingMode) : CPU :=
  CPU.update_z_and_n_flags { s with register_a := s.register_y } s.register_y

def CPU.sta (s : CPU) (mode : AddressingMode) : Option CPU := do
  let address ← s.get_operand_address mode
  s.mem_write address s.register_a

def CPU.stx (s : CPU) (mode : AddressingMode) : Option CPU := do
  let address ← s.get_operand_address mode
  s.mem_write address s.register_x

def CPU.sty (s : CPU) (mode : AddressingMode) : Option CPU := do
  let address ← s.get_operand_address mode
  s.mem_write address s.register_y

def CPU.pha (s : CPU) (_ : AddressingMode) : Option CPU :=
  s.stack_push s.register_a

def CPU.php (s : CPU) (_ : AddressingMode) : Option CPU :=
  s.stack_push (flagInsert (flagInsert s.status CpuFlags.BREAK) CpuFlags.BIT5)

def CPU.pla (s : CPU) (_ : AddressingMode) : Option CPU :=
  (s.stack_pop).map fun (v, s') =>
    CPU.update_z_and_n_flags { s' with register_a := v } v

/-- `plp`: pop the status byte; `CpuFlags::from_bits(..).unwrap_or_else(..)`
aborts on `None` (modelled by the `Option` bind); then remove BIT5 and
remove BREAK. -/
def CPU.plp (s : CPU) (_ : AddressingMode) : Option CPU := do
  let (v, s') ← s.stack_pop
  let st ← CpuFlags.from_bits v
  pure { s' with status := flagRemove (flagRemove st CpuFlags.BIT5) CpuFlags.BREAK }

def CPU.dec (s : CPU) (mode : AddressingMode) : Option CPU := do
  let addr ← s.get_operand_address mode
  let value ← s.mem_read addr
  let value := (value + 255) % 256
  let s' ← s.mem_write addr value
  pure (s'.update_z_and_n_flags value)

def CPU.dex (s : CPU) (_ : AddressingMode) : CPU :=
  let x := (s.register_x + 255) % 256
  CPU.update_z_and_n_flags { s with register_x := x } x

def CPU.dey (s : CPU) (_ : AddressingMode) : CPU :=
  let y := (s.register_y + 255) % 256
  CPU.update_z_and_n_flags { s with register_y := y } y

def CPU.inc (s : CPU) (mode : AddressingMode) : Option CPU := do
  let addr ← s.get_operand_address mode
  let value ← s.mem_read addr
  let value := (value + 1) % 256
  let s' ← s.mem_write addr value
  pure (s'.update_z_and_n_flags value)

def CPU.inx (s : CPU) (_ : AddressingMode) : CPU :=
  let x := (s.register_x + 1) % 256
  CPU.update_z_and_n_flags { s with register_x := x } x

def CPU.iny (s : CPU) (_ : AddressingMode) : CPU :=
  let y := (s.register_y + 1) % 256
  CPU.update_z_and_n_flags { s with register_y := y } y

def CPU.and (s : CPU) (mode : AddressingMode) : Option CPU :=
  (s.get_operand_value mode).map fun value =>
    let a := s.register_a &&& value
    CPU.update_z_and_n_flags { s with register_a := a } a

def CPU.eor (s : CPU) (mode : AddressingMode) : Option CPU :=
  (s.get_operand_value mode).map fun value =>
    let a := s.register_a ^^^ value
    CPU.update_z_and_n_flags { s with register_a := a } a

def CPU.ora (s : CPU) (mode : AddressingMode) : Option CPU :=
  (s.get_operand_value mode).map fun value =>
    let a := s.register_a ||| value
    CPU.update_z_and_n_flags { s with register_a := a } a

def CPU.asl (s : CPU) (mode : AddressingMode) : Option CPU := do
  let address ← s.get_operand_address mode
  let value ← s.get_operand_value mode
  let s :=
    if value &&& 0b10000000 = 0b10000000 then
      { s with status := flagInsert s.status CpuFlags.CARRY }
    else { s with status := flagRemove s.status CpuFlags.CARRY }
  let value := (value <<< 1) % 256
  let s' ← s.mem_write address value
  pure (s'.update_z_and_n_flags value)

def CPU.asla (s : CPU) (_ : AddressingMode) : CPU :=
  let s :=
    if s.register_a &&& 0b10000000 = 0b10000000 then
      { s with status := flagInsert s.status CpuFlags.CARRY }
    else { s with status := flagRemove s.status CpuFlags.CARRY }
  let a := (s.register_a <<< 1) % 256
  CPU.update_z_and_n_flags { s with register_a := a } a

def CPU.lsr (s : CPU) (mode : AddressingMode) : Option CPU := do
  let address ← s.get_operand_address mode
  let value ← s.get_operand_value mode
  let s :=
    if value &&& 0b00000001 = 0b00000001 then
      { s with status := flagInsert s.status CpuFlags.CARRY }
    else { s with status := flagRemove s.status CpuFlags.CARRY }
  let value := value >>> 1
  let s' ← s.mem_write address value
  pure (s'.update_z_and_n_flags value)

def CPU.lsra (s : CPU) (_ : AddressingMode) : CPU :=
  let s :=
    if s.register_a &&& 0b00000001 = 0b00000001 then
      { s with status := flagInsert s.status CpuFlags.CARRY }
    else { s with status := flagRemove s.status CpuFlags.CARRY }
  let a := s.register_a >>> 1
  CPU.update_z_and_n_flags { s with register_a := a } a

def CPU.rol (s : CPU) (mode : AddressingMode) : Option CPU := do
  let address ← s.get_operand_address mode
  let value ← s.get_operand_value mode
  let old_carry := flagContains s.status CpuFlags.CARRY
  let s :=
    if value &&& 0b10000000 = 0b10000000 then
      { s with status := flagInsert s.status CpuFlags.CARRY }
    else { s with status := flagRemove s.status CpuFlags.CARRY }
  let value := (value <<< 1) % 256
  let value := if old_carry then value ||| 1 else value
  let s' ← s.mem_write address value
  pure (s'.update_z_and_n_flags value)

def CPU.rola (s : CPU) (_ : AddressingMode) : CPU :=
  let old_carry := flagContains s.status CpuFlags.CARRY
  let s :=
    if s.register_a &&& 0b10000000 = 0b10000000 then
      { s with status := flagInsert s.status CpuFlags.CARRY }
    else { s with status := flagRemove s.status CpuFlags.CARRY }
  let a := (s.register_a <<< 1) % 256
  let a := if old_carry then a ||| 1 else a
  CPU.update_z_and_n_flags { s with register_a := a } a

def CPU.ror (s : CPU) (mode : AddressingMode) : Option CPU := do
  let address ← s.get_operand_address mode
  let value ← s.get_operand_value mode
  let old_carry := flagContains s.status CpuFlags.CARRY
  let s :=
    if value &&& 0b00000001 = 0b00000001 then
      { s with status := flagInsert s.status CpuFlags.CARRY }
    else { s with status := flagRemove s.status CpuFlags.CARRY }
  let value := value >>> 1
  let value := if old_carry then value ||| 0b10000000 else value
  let s' ← s.mem_write address value
  pure (s'.update_z_and_n_flags value)

def CPU.rora (s : CPU) (_ : AddressingMode) : CPU :=
  let old_carry := flagContains s.status CpuFlags.CARRY
  let s :=
    if s.register_a &&& 0b00000001 = 0b00000001 then
      { s with status := flagInsert s.status CpuFlags.CARRY }
    else { s with status := flagRemove s.status CpuFlags.CARRY }
  let a := s.register_a >>> 1
  let a := if old_carry then a ||| 0b10000000 else a
  CPU.update_z_and_n_flags { s with register_a := a } a

def CPU.clc (s : CPU) (_ : AddressingMode) : CPU :=
  { s with status := flagRemove s.status CpuFlags.CARRY }

def CPU.cld (s : CPU) (_ : AddressingMode) : CPU :=
  { s with status := flagRemove s.status CpuFlags.DECIMAL }

def CPU.cli (s : CPU) (_ : AddressingMode) : CPU :=
  { s with status := flagRemove s.status CpuFlags.INTERRUPT }

def CPU.clv (s : CPU) (_ : AddressingMode) : CPU :=
  { s with status := flagRemove s.status CpuFlags.OVERFLOW }

def CPU.sec (s : CPU) (_ : AddressingMode) : CPU :=
  { s with status := flagInsert s.status CpuFlags.CARRY }

def CPU.sed (s : CPU) (_ : AddressingMode) : CPU :=
  { s with status := flagInsert s.status CpuFlags.DECIMAL }

def CPU.sei (s : CPU) (_ : AddressingMode) : CPU :=
  { s with status := flagInsert s.status CpuFlags.INTERRUPT }

/-- u8 `wrapping_sub`. -/
def wrappingSub8 (a b : Nat) : Nat := (a + (256 - b % 256)) % 256

def CPU.cmp (s : CPU) (mode : AddressingMode) : Option CPU :=
  (s.get_operand_value mode).map fun value =>
    let s :=
      if s.register_a < value then
        { s with status := flagRemove s.status CpuFlags.CARRY }
      else { s with status := flagInsert s.status CpuFlags.CARRY }
    s.update_z_and_n_flags (wrappingSub8 s.register_a value)

def CPU.cpx (s : CPU) (mode : AddressingMode) : Option CPU :=
  (s.get_operand_value mode).map fun value =>
    let s :=
      if s.register_x < value then
        { s with status := flagRemove s.status CpuFlags.CARRY }
      else { s with status := flagInsert s.status CpuFlags.CARRY }
    s.update_z_and_n_flags (wrappingSub8 s.register_x value)

def CPU.cpy (s : CPU) (mode : AddressingMode) : Option CPU :=
  (s.get_operand_value mode).map fun value =>
    let s :=
      if s.register_y < value then
        { s with status := flagRemove s.status CpuFlags.CARRY }
      else { s with status := flagInsert s.status CpuFlags.CARRY }
    s.update_z_and_n_flags (wrappingSub8 s.register_y value)

/-! ## Theorems for C2 and C10 -/

/-- C2 (counterexample): starting from `CPU::new()`, `reset()` leaves the
stack pointer at 0xFF, not 0xFD as the claim states, and leaves the
Interrupt-disable flag (bit 2) clear, not set. -/
theorem reset_stack_pointer_counterexample :
    (CPU.new.reset).map (fun t => t.stack_pointer) ≠ some 0xFD ∧
    (CPU.new.reset).map (fun t => t.stack_pointer) = some 0xFF ∧
    (CPU.new.reset).map (fun t => t.status.testBit 2) = some false := by
  decide

/-- C2 (amended): for every starting CPU state, `reset()` sets the program
counter to the 16-bit little-endian value read at 0xFFFC, sets the stack
pointer to 0xFF, and sets the status register to the empty flag set (in
particular the Interrupt-disable flag is left clear). -/
theorem reset_amended (s : CPU) :
    s.reset = some { s with register_a := 0, register_x := 0, register_y := 0,
                            status := 0, stack_pointer := 0xFF,
                            program_counter := (s.memory 0xFFFD) <<< 8 ||| s.memory 0xFFFC } := by
  simp [CPU.reset, CPU.mem_read_u16, CPU.mem_read, STACK_START]

/-- C10: the CPU memory array holds exactly 0xFFFF bytes, one short of the
16-bit address space: `mem_read` and `mem_write` succeed exactly for
addresses strictly below 0xFFFF, and access at 0xFFFF itself is out of
bounds. -/
theorem cpu_memory_bounds (s : CPU) (addr d : Nat) :
    ((s.mem_read addr).isSome ↔ addr < 0xFFFF) ∧
    ((s.mem_write addr d).isSome ↔ addr < 0xFFFF) ∧
    s.mem_read 0xFFFF = none ∧ s.mem_write 0xFFFF d = none := by
  refine ⟨?_, ?_, ?_, ?_⟩ <;> simp [CPU.mem_read, CPU.mem_write]

/-! ## Theorems for C9 (PLP and from_bits) -/

/-- Masking a byte with 0xFF is the identity. -/
theorem and_mask_byte (c : Nat) (hc : c < 256) : c &&& 0xFF = c := by
  have h := Nat.and_pow_two_sub_one_eq_mod c 8
  norm_num at h
  rw [h, Nat.mod_eq_of_lt hc]

/-- C9: `CpuFlags::from_bits` succeeds on every 8-bit value (all eight bits
are defined flags), so the abort branch in `plp` is unreachable and `plp`
terminates normally whenever memory holds bytes. -/
theorem plp_from_bits_total (b : Nat) (s : CPU) (hb : b < 256)
    (hm : ∀ a, s.memory a < 256) :
    CpuFlags.from_bits b = some b ∧ (s.plp AddressingMode.Implicit).isSome := by
  constructor
  · simp [CpuFlags.from_bits, CpuFlags.ALL, and_mask_byte b hb]
  · have hsp : (s.stack_pointer + 1) % 256 < 256 := Nat.mod_lt _ (by norm_num)
    simp only [CPU.plp, CPU.stack_pop, CPU.mem_read, STACK_PAGE]
    rw [if_pos (by omega : 0x0100 + (s.stack_pointer + 1) % 256 < 0xFFFF)]
    simp [CpuFlags.from_bits, CpuFlags.ALL, and_mask_byte _ (hm _)]

/-- C9 witness: the result of `plp_from_bits_total` at the byte 0x30 and the
freshly created CPU. -/
theorem plp_from_bits_total_witness :
    (0x30 : Nat) < 256 ∧ (∀ a, CPU.new.memory a < 256) ∧
    (CpuFlags.from_bits 0x30 = some 0x30 ∧
      (CPU.new.plp AddressingMode.Implicit).isSome) :=
  ⟨by decide, fun a => by norm_num [CPU.new],
    plp_from_bits_total 0x30 CPU.new (by decide) (fun a => by norm_num [CPU.new])⟩

/-! ## Theorems for C3 (PHP then PLP) -/

/-- Concrete CPU state with bit 5 of the status register set, used to refute
the bit-5 part of the round-trip claim. -/
def cpuC3 : CPU :=
  { register_a := 0, register_x := 0, register_y := 0, status := 0x20,
    stack_pointer := 0xFF, program_counter := 0x8000, memory := fun _ => 0 }

/-- C3 (counterexample): starting from a status with bit 5 set, executing PHP
then PLP yields a status whose bit 5 is 0 — `plp` removes BIT5 instead of
forcing it to 1, so the claim as stated is false. -/
theorem php_plp_bit5_counterexample :
    ((cpuC3.php AddressingMode.Implicit).bind
        (fun t => t.plp AddressingMode.Implicit)).map
      (fun t => t.status.testBit 5) = some false ∧
    ((cpuC3.php AddressingMode.Implicit).bind
        (fun t => t.plp AddressingMode.Implicit)).map
      (fun t => t.status.testBit 5) ≠ some true := by
  decide

set_option maxRecDepth 8000 in
/-- Core bit computation of the PHP/PLP round trip: pushing P with BREAK and
BIT5 inserted and popping with BIT5 and BREAK removed clears bits 4 and 5
and keeps the rest. -/
theorem php_plp_status_key :
    ∀ P < 256,
      flagRemove (flagRemove (flagInsert (flagInsert P CpuFlags.BREAK) CpuFlags.BIT5)
          CpuFlags.BIT5) CpuFlags.BREAK = P &&& 0b11001111 := by
  decide

/-- C3 (amended): for every status P (8-bit) and in-range stack pointer, PHP
followed by PLP yields a status equal to P on bits 0-3 and 6-7, with bit 4
(Break) and bit 5 both forced to 0 after the PLP. -/
theorem php_plp_roundtrip_amended (s : CPU) (hP : s.status < 256)
    (hsp : s.stack_pointer < 256) :
    ∃ s', (s.php AddressingMode.Implicit).bind
        (fun t => t.plp AddressingMode.Implicit) = some s' ∧
      s'.status = s.status &&& 0b11001111 ∧
      s'.status.testBit 4 = false ∧ s'.status.testBit 5 = false := by
  have hw : (0x0100 : Nat) + s.stack_pointer < 0xFFFF := by omega
  have hsp2 : ((s.stack_pointer + 255) % 256 + 1) % 256 = s.stack_pointer := by
    omega
  have hflags_lt :
      flagInsert (flagInsert s.status CpuFlags.BREAK) CpuFlags.BIT5 < 256 := by
    have h1 : s.status ||| CpuFlags.BREAK < 2 ^ 8 :=
      Nat.or_lt_two_pow (by norm_num [hP]) (by norm_num [CpuFlags.BREAK])
    have h2 := Nat.or_lt_two_pow h1 (by norm_num [CpuFlags.BIT5] : CpuFlags.BIT5 < 2 ^ 8)
    have h28 : (2 : Nat) ^ 8 = 256 := by norm_num
    rw [h28] at h2
    simpa [flagInsert] using h2
  have hmask := and_mask_byte _ hflags_lt
  have hrun : (s.php AddressingMode.Implicit).bind
      (fun t => t.plp AddressingMode.Implicit) = some { s with
        memory := fun a =>
          if a = 0x0100 + s.stack_pointer then
            flagInsert (flagInsert s.status CpuFlags.BREAK) CpuFlags.BIT5
          else s.memory a,
        status := flagRemove (flagRemove
          (flagInsert (flagInsert s.status CpuFlags.BREAK) CpuFlags.BIT5)
          CpuFlags.BIT5) CpuFlags.BREAK } := by
    simp [CPU.php, CPU.stack_push, CPU.mem_write, STACK_PAGE, CPU.plp,
      CPU.stack_pop, CPU.mem_read, CpuFlags.from_bits, CpuFlags.ALL,
      hw, hsp2, hmask]
  refine ⟨_, hrun, ?_, ?_, ?_⟩
  · exact php_plp_status_key s.status hP
  · rw [show ({ s with
        memory := fun a =>
          if a = 0x0100 + s.stack_pointer then
            flagInsert (flagInsert s.status CpuFlags.BREAK) CpuFlags.BIT5
          else s.memory a,
        status := flagRemove (flagRemove
          (flagInsert (flagInsert s.status CpuFlags.BREAK) CpuFlags.BIT5)
          CpuFlags.BIT5) CpuFlags.BREAK } : CPU).status = s.status &&& 0b11001111
      from php_plp_status_key s.status hP]
    simp [Nat.testBit_and, (by decide : Nat.testBit 0b11001111 4 = false)]
  · rw [show ({ s with
        memory := fun a =>
          if a = 0x0100 + s.stack_pointer then
            flagInsert (flagInsert s.status CpuFlags.BREAK) CpuFlags.BIT5
          else s.memory a,
        status := flagRemove (flagRemove
          (flagInsert (flagInsert s.status CpuFlags.BREAK) CpuFlags.BIT5)
          CpuFlags.BIT5) CpuFlags.BREAK } : CPU).status = s.status &&& 0b11001111
      from php_plp_status_key s.status hP]
    simp [Nat.testBit_and, (by decide : Nat.testBit 0b11001111 5 = false)]

/-- C3 witness: the amended round trip evaluated at `cpuC3`. -/
theorem php_plp_roundtrip_amended_witness :
    cpuC3.status < 256 ∧ cpuC3.stack_pointer < 256 ∧
    (∃ s', (cpuC3.php AddressingMode.Implicit).bind
        (fun t => t.plp AddressingMode.Implicit) = some s' ∧
      s'.status = cpuC3.status &&& 0b11001111 ∧
      s'.status.testBit 4 = false ∧ s'.status.testBit 5 = false) :=
  ⟨by decide, by decide, php_plp_roundtrip_amended cpuC3 (by decide) (by decide)⟩

/-! ## Theorems for C7 (CMP / CPX / CPY flag semantics) -/

/-- Bit 7 test via masking with 128. -/
theorem and128_testBit7 (r : Nat) : (r &&& 128 ≠ 0) ↔ r.testBit 7 = true := by
  have h := Nat.and_two_pow r 7
  norm_num at h
  rw [h]
  cases hb : r.testBit 7 <;> simp [hb]

/-- `update_z_and_n_flags` leaves bit 0 (Carry) of the status unchanged. -/
theorem uznf_status_bit0 (t : CPU) (r : Nat) :
    (t.update_z_and_n_flags r).status.testBit 0 = t.status.testBit 0 := by
  unfold CPU.update_z_and_n_flags CPU.update_n_flag CPU.update_z_flag
  split <;> split <;>
    simp [flagInsert, flagRemove, CpuFlags.ZERO, CpuFlags.NEGATIVE,
      Nat.testBit_or, Nat.testBit_and, Nat.testBit_xor,
      (by decide : Nat.testBit 2 0 = false), (by decide : Nat.testBit 128 0 = false),
      (by decide : Nat.testBit 255 0 = true)]

/-- `update_z_and_n_flags` sets bit 1 (Zero) iff the result is zero. -/
theorem uznf_status_bit1 (t : CPU) (r : Nat) :
    (t.update_z_and_n_flags r).status.testBit 1 = decide (r = 0) := by
  unfold CPU.update_z_and_n_flags CPU.update_n_flag CPU.update_z_flag
  split <;> split <;>
    simp_all [flagInsert, flagRemove, CpuFlags.ZERO, CpuFlags.NEGATIVE,
      Nat.testBit_or, Nat.testBit_and, Nat.testBit_xor,
      (by decide : Nat.testBit 2 1 = true), (by decide : Nat.testBit 128 1 = false),
      (by decide : Nat.testBit 255 1 = true), (by decide : Nat.testBit 253 1 = false),
      (by decide : Nat.testBit 127 1 = true)]

/-- `update_z_and_n_flags` sets bit 7 (Negative) to bit 7 of the result. -/
theorem uznf_status_bit7 (t : CPU) (r : Nat) :
    (t.update_z_and_n_flags r).status.testBit 7 = r.testBit 7 := by
  have h7 := and128_testBit7 r
  unfold CPU.update_z_and_n_flags CPU.update_n_flag CPU.update_z_flag
  split <;> split <;>
    simp_all [flagInsert, flagRemove, CpuFlags.ZERO, CpuFlags.NEGATIVE,
      Nat.testBit_or, Nat.testBit_and, Nat.testBit_xor,
      (by decide : Nat.testBit 2 7 = false), (by decide : Nat.testBit 128 7 = true),
      (by decide : Nat.testBit 255 7 = true), (by decide : Nat.testBit 253 7 = true),
      (by decide : Nat.testBit 127 7 = false)]

/-- Removing the Carry flag clears bit 0. -/
theorem flagRemove_carry_bit0 (P : Nat) :
    (flagRemove P CpuFlags.CARRY).testBit 0 = false := by
  simp [flagRemove, CpuFlags.CARRY, Nat.testBit_and, Nat.testBit_xor,
    (by decide : Nat.testBit 255 0 = true), (by decide : Nat.testBit 1 0 = true)]

/-- Inserting the Carry flag sets bit 0. -/
theorem flagInsert_carry_bit0 (P : Nat) :
    (flagInsert P CpuFlags.CARRY).testBit 0 = true := by
  simp [flagInsert, CpuFlags.CARRY, Nat.testBit_or,
    (by decide : Nat.testBit 1 0 = true)]

/-- u8 `wrapping_sub` written with the operand subtracted directly. -/
theorem wrappingSub8_eq (r m : Nat) (hm : m < 256) :
    wrappingSub8 r m = (r + 256 - m) % 256 := by
  unfold wrappingSub8
  rw [Nat.mod_eq_of_lt hm]
  congr 1
  omega

/-- C7: for every register value r (A, X, or Y) and operand value m (both
8-bit), CMP/CPX/CPY set Carry (bit 0) iff r ≥ m as unsigned bytes, set Zero
(bit 1) iff r = m, and set Negative (bit 7) to bit 7 of (r − m) mod 256. -/
theorem compare_flags (s : CPU) (mode : AddressingMode) (m : Nat)
    (hv : s.get_operand_value mode = some m) (hm : m < 256)
    (hA : s.register_a < 256) (hX : s.register_x < 256) (hY : s.register_y < 256) :
    (∃ t, s.cmp mode = some t ∧
      t.status.testBit 0 = decide (m ≤ s.register_a) ∧
      t.status.testBit 1 = decide (s.register_a = m) ∧
      t.status.testBit 7 = ((s.register_a + 256 - m) % 256).testBit 7) ∧
    (∃ t, s.cpx mode = some t ∧
      t.status.testBit 0 = decide (m ≤ s.register_x) ∧
      t.status.testBit 1 = decide (s.register_x = m) ∧
      t.status.testBit 7 = ((s.register_x + 256 - m) % 256).testBit 7) ∧
    (∃ t, s.cpy mode = some t ∧
      t.status.testBit 0 = decide (m ≤ s.register_y) ∧
      t.status.testBit 1 = decide (s.register_y = m) ∧
      t.status.testBit 7 = ((s.register_y + 256 - m) % 256).testBit 7) := by
  refine ⟨?_, ?_, ?_⟩
  · by_cases hlt : s.register_a < m
    · simp only [CPU.cmp, hv, Option.map_some', hlt, if_true]
      refine ⟨_, rfl, ?_, ?_, ?_⟩
      · rw [uznf_status_bit0]
        dsimp only
        rw [flagRemove_carry_bit0]
        exact (decide_eq_false (by omega)).symm
      · rw [uznf_status_bit1, decide_eq_decide]
        unfold wrappingSub8
        omega
      · rw [uznf_status_bit7, wrappingSub8_eq _ _ hm]
    · simp only [CPU.cmp, hv, Option.map_some', hlt, if_false]
      refine ⟨_, rfl, ?_, ?_, ?_⟩
      · rw [uznf_status_bit0]
        dsimp only
        rw [flagInsert_carry_bit0]
        exact (decide_eq_true (by omega)).symm
      · rw [uznf_status_bit1, decide_eq_decide]
        unfold wrappingSub8
        omega
      · rw [uznf_status_bit7, wrappingSub8_eq _ _ hm]
  · by_cases hlt : s.register_x < m
    · simp only [CPU.cpx, hv, Option.map_some', hlt, if_true]
      refine ⟨_, rfl, ?_, ?_, ?_⟩
      · rw [uznf_status_bit0]
        dsimp only
        rw [flagRemove_carry_bit0]
        exact (decide_eq_false (by omega)).symm
      · rw [uznf_status_bit1, decide_eq_decide]
        unfold wrappingSub8
        omega
      · rw [uznf_status_bit7, wrappingSub8_eq _ _ hm]
    · simp only [CPU.cpx, hv, Option.map_some', hlt, if_false]
      refine ⟨_, rfl, ?_, ?_, ?_⟩
      · rw [uznf_status_bit0]
        dsimp only
        rw [flagInsert_carry_bit0]
        exact (decide_eq_true (by omega)).symm
      · rw [uznf_status_bit1, decide_eq_decide]
        unfold wrappingSub8
        omega
      · rw [uznf_status_bit7, wrappingSub8_eq _ _ hm]
  · by_cases hlt : s.register_y < m
    · simp only [CPU.cpy, hv, Option.map_some', hlt, if_true]
      refine ⟨_, rfl, ?_, ?_, ?_⟩
      · rw [uznf_status_bit0]
        dsimp only
        rw [flagRemove_carry_bit0]
        exact (decide_eq_false (by omega)).symm
      · rw [uznf_status_bit1, decide_eq_decide]
        unfold wrappingSub8
        omega
      · rw [uznf_status_bit7, wrappingSub8_eq _ _ hm]
    · simp only [CPU.cpy, hv, Option.map_some', hlt, if_false]
      refine ⟨_, rfl, ?_, ?_, ?_⟩
      · rw [uznf_status_bit0]
        dsimp only
        rw [flagInsert_carry_bit0]
        exact (decide_eq_true (by omega)).symm
      · rw [uznf_status_bit1, decide_eq_decide]
        unfold wrappingSub8
        omega
      · rw [uznf_status_bit7, wrappingSub8_eq _ _ hm]

/-- Concrete CPU state for the compare-flags witness: an immediate operand
0x30 at the program counter, A = 0x50, X = 0x30, Y = 0x10. -/
def cpuC7 : CPU :=
  { register_a := 0x50, register_x := 0x30, register_y := 0x10, status := 0,
    stack_pointer := 0xFF, program_counter := 0,
    memory := fun a => if a = 0 then 0x30 else 0 }

/-- C7 witness: `compare_flags` applied at `cpuC7` with operand 0x30. -/
theorem compare_flags_witness :
    cpuC7.get_operand_value AddressingMode.Immediate = some 0x30 ∧
    (0x30 : Nat) < 256 ∧ cpuC7.register_a < 256 ∧ cpuC7.register_x < 256 ∧
    cpuC7.register_y < 256 ∧
    ((∃ t, cpuC7.cmp AddressingMode.Immediate = some t ∧
      t.status.testBit 0 = decide ((0x30 : Nat) ≤ cpuC7.register_a) ∧
      t.status.testBit 1 = decide (cpuC7.register_a = 0x30) ∧
      t.status.testBit 7 = ((cpuC7.register_a + 256 - 0x30) % 256).testBit 7) ∧
    (∃ t, cpuC7.cpx AddressingMode.Immediate = some t ∧
      t.status.testBit 0 = decide ((0x30 : Nat) ≤ cpuC7.register_x) ∧
      t.status.testBit 1 = decide (cpuC7.register_x = 0x30) ∧
      t.status.testBit 7 = ((cpuC7.register_x + 256 - 0x30) % 256).testBit 7) ∧
    (∃ t, cpuC7.cpy AddressingMode.Immediate = some t ∧
      t.status.testBit 0 = decide ((0x30 : Nat) ≤ cpuC7.register_y) ∧
      t.status.testBit 1 = decide (cpuC7.register_y = 0x30) ∧
      t.status.testBit 7 = ((cpuC7.register_y + 256 - 0x30) % 256).testBit 7)) :=
  ⟨by decide, by decide, by decide, by decide, by decide,
    compare_flags cpuC7 AddressingMode.Immediate 0x30 (by decide) (by decide)
      (by decide) (by decide) (by decide)⟩

/-! ## Opcode table (opcodes.rs) -/

inductive Instruction where
  | LDA | LDX | LDY | STA | STX | STY | TAX | TAY | TSX | TXA | TXS | TYA
  | PHA | PHP | PLA | PLP
  | DEC | DEX | DEY | INC | INX | INY
  | AND | EOR | ORA
  | ASL | ASLA | LSR | LSRA | ROL | ROLA | ROR | RORA
  | ADC | BRK
deriving DecidableEq

structure OpCode where
  instruction : Instruction
  bytes : Nat
  cycles : Nat
  addressing_mode : AddressingMode
deriving DecidableEq

/-- The opcode dispatch table, in source insertion order; the source builds a
`HashMap<u8, OpCode>`, modelled as an association list with `List.lookup`. -/
def OPCODES : List (Nat × OpCode) := [
  (0x69, OpCode.mk Instruction.ADC 2 2 AddressingMode.Immediate),
  (0x65, OpCode.mk Instruction.ADC 2 3 AddressingMode.ZeroPage),
  (0x75, OpCode.mk Instruction.ADC 2 4 AddressingMode.ZeroPageX),
  (0x6D, OpCode.mk Instruction.ADC 3 4 AddressingMode.Absolute),
  (0x7D, OpCode.mk Instruction.ADC 3 4 AddressingMode.AbsoluteX),
  (0x79, OpCode.mk Instruction.ADC 3 4 AddressingMode.AbsoluteY),
  (0x61, OpCode.mk Instruction.ADC 2 6 AddressingMode.IndirectX),
  (0x71, OpCode.mk Instruction.ADC 2 5 AddressingMode.IndirectY),
  (0x00, OpCode.mk Instruction.BRK 1 7 AddressingMode.Implicit),
  (0xA9, OpCode.mk Instruction.LDA 2 2 AddressingMode.Immediate),
  (0xA5, OpCode.mk Instruction.LDA 2 3 AddressingMode.ZeroPage),
  (0xB5, OpCode.mk Instruction.LDA 2 4 AddressingMode.ZeroPageX),
  (0xAD, OpCode.mk Instruction.LDA 3 4 AddressingMode.Absolute),
  (0xBD, OpCode.mk Instruction.LDA 3 4 AddressingMode.AbsoluteX),
  (0xB9, OpCode.mk Instruction.LDA 3 4 AddressingMode.AbsoluteY),
  (0xA1, OpCode.mk Instruction.LDA 2 6 AddressingMode.IndirectX),
  (0xB1, OpCode.mk Instruction.LDA 2 5 AddressingMode.IndirectY),
  (0xA2, OpCode.mk Instruction.LDX 2 2 AddressingMode.Immediate),
  (0xA6, OpCode.mk Instruction.LDX 2 3 AddressingMode.ZeroPage),
  (0xB6, OpCode.mk Instruction.LDX 2 4 AddressingMode.ZeroPageY),
  (0xAE, OpCode.mk Instruction.LDX 3 4 AddressingMode.Absolute),
  (0xBE, OpCode.mk Instruction.LDX 3 4 AddressingMode.AbsoluteY),
  (0xA0, OpCode.mk Instruction.LDY 2 2 AddressingMode.Immediate),
  (0xA4, OpCode.mk Instruction.LDY 2 3 AddressingMode.ZeroPage),
  (0xB4, OpCode.mk Instruction.LDY 2 4 AddressingMode.ZeroPageX),
  (0xAC, OpCode.mk Instruction.LDY 3 4 AddressingMode.Absolute),
  (0xBC, OpCode.mk Instruction.LDY 3 4 AddressingMode.AbsoluteX),
  (0x85, OpCode.mk Instruction.STA 2 3 AddressingMode.ZeroPage),
  (0x95, OpCode.mk Instruction.STA 2 4 AddressingMode.ZeroPageX),
  (0x8D, OpCode.mk Instruction.STA 3 4 AddressingMode.Absolute),
  (0x9D, OpCode.mk Instruction.STA 3 5 AddressingMode.AbsoluteX),
  (0x99, OpCode.mk Instruction.STA 3 5 AddressingMode.AbsoluteY),
  (0x81, OpCode.mk Instruction.STA 2 6 AddressingMode.IndirectX),
  (0x91, OpCode.mk Instruction.STA 2 6 AddressingMode.IndirectY),
  (0x86, OpCode.mk Instruction.STX 2 3 AddressingMode.ZeroPage),
  (0x96, OpCode.mk Instruction.STX 2 4 AddressingMode.ZeroPageY),
  (0x8E, OpCode.mk Instruction.STX 3 4 AddressingMode.Absolute),
  (0x84, OpCode.mk Instruction.STY 2 3 AddressingMode.ZeroPage),
  (0x94, OpCode.mk Instruction.STY 2 4 AddressingMode.ZeroPageX),
  (0x8C, OpCode.mk Instruction.STY 3 4 AddressingMode.Absolute),
  (0xAA, OpCode.mk Instruction.TAX 1 2 AddressingMode.Implicit),
  (0xA8, OpCode.mk Instruction.TAY 1 2 AddressingMode.Implicit),
  (0xBA, OpCode.mk Instruction.TSX 1 2 AddressingMode.Implicit),
  (0x8A, OpCode.mk Instruction.TXA 1 2 AddressingMode.Implicit),
  (0x9A, OpCode.mk Instruction.TXS 1 2 AddressingMode.Implicit),
  (0x98, OpCode.mk Instruction.TYA 1 2 AddressingMode.Implicit),
  (0x48, OpCode.mk Instruction.PHA 1 3 AddressingMode.Implicit),
  (0x08, OpCode.mk Instruction.PHP 1 3 AddressingMode.Implicit),
  (0x68, OpCode.mk Instruction.PLA 1 4 AddressingMode.Implicit),
  (0x28, OpCode.mk Instruction.PLP 1 4 AddressingMode.Implicit),
  (0xC6, OpCode.mk Instruction.DEC 2 5 AddressingMode.ZeroPage),
  (0xD6, OpCode.mk Instruction.DEC 2 6 AddressingMode.ZeroPageX),
  (0xCE, OpCode.mk Instruction.DEC 3 6 AddressingMode.Absolute),
  (0xDE, OpCode.mk Instruction.DEC 3 7 AddressingMode.AbsoluteX),
  (0xCA, OpCode.mk Instruction.DEX 1 2 AddressingMode.Implicit),
  (0x88, OpCode.mk Instruction.DEY 1 2 AddressingMode.Implicit),
  (0xE6, OpCode.mk Instruction.INC 2 5 AddressingMode.ZeroPage),
  (0xF6, OpCode.mk Instruction.INC 2 6 AddressingMode.ZeroPageX),
  (0xEE, OpCode.mk Instruction.INC 3 6 AddressingMode.Absolute),
  (0xFE, OpCode.mk Instruction.INC 3 7 AddressingMode.AbsoluteX),
  (0xE8, OpCode.mk Instruction.INX 1 2 AddressingMode.Implicit),
  (0xC8, OpCode.mk Instruction.INY 1 2 AddressingMode.Implicit),
  (0x29, OpCode.mk Instruction.AND 2 2 AddressingMode.Immediate),
  (0x25, OpCode.mk Instruction.AND 2 3 AddressingMode.ZeroPage),
  (0x35, OpCode.mk Instruction.AND 2 4 AddressingMode.ZeroPageX),
  (0x2D, OpCode.mk Instruction.AND 3 4 AddressingMode.Absolute),
  (0x3D, OpCode.mk Instruction.AND 3 4 AddressingMode.AbsoluteX),
  (0x39, OpCode.mk Instruction.AND 3 4 AddressingMode.AbsoluteY),
  (0x21, OpCode.mk Instruction.AND 2 6 AddressingMode.IndirectX),
  (0x31, OpCode.mk Instruction.AND 2 5 AddressingMode.IndirectY),
  (0x49, OpCode.mk Instruction.EOR 2 2 AddressingMode.Immediate),
  (0x45, OpCode.mk Instruction.EOR 2 3 AddressingMode.ZeroPage),
  (0x55, OpCode.mk Instruction.EOR 2 4 AddressingMode.ZeroPageX),
  (0x4D, OpCode.mk Instruction.EOR 3 4 AddressingMode.Absolute),
  (0x5D, OpCode.mk Instruction.EOR 3 4 AddressingMode.AbsoluteX),
  (0x59, OpCode.mk Instruction.EOR 3 4 AddressingMode.AbsoluteY),
  (0x41, OpCode.mk Instruction.EOR 2 6 AddressingMode.IndirectX),
  (0x51, OpCode.mk Instruction.EOR 2 5 AddressingMode.IndirectY),
  (0x09, OpCode.mk Instruction.ORA 2 2 AddressingMode.Immediate),
  (0x05, OpCode.mk Instruction.ORA 2 3 AddressingMode.ZeroPage),
  (0x15, OpCode.mk Instruction.ORA 2 4 AddressingMode.ZeroPageX),
  (0x0D, OpCode.mk Instruction.ORA 3 4 AddressingMode.Absolute),
  (0x1D, OpCode.mk Instruction.ORA 3 4 AddressingMode.AbsoluteX),
  (0x19, OpCode.mk Instruction.ORA 3 4 AddressingMode.AbsoluteY),
  (0x01, OpCode.mk Instruction.ORA 2 6 AddressingMode.IndirectX),
  (0x11, OpCode.mk Instruction.ORA 2 5 AddressingMode.IndirectY),
  (0x0A, OpCode.mk Instruction.ASLA 1 2 AddressingMode.Implicit),
  (0x06, OpCode.mk Instruction.ASL 2 5 AddressingMode.ZeroPage),
  (0x16, OpCode.mk Instruction.ASL 2 6 AddressingMode.ZeroPageX),
  (0x0E, OpCode.mk Instruction.ASL 3 6 AddressingMode.Absolute),
  (0x1E, OpCode.mk Instruction.ASL 3 7 AddressingMode.AbsoluteX),
  (0x4A, OpCode.mk Instruction.LSRA 1 2 AddressingMode.Implicit),
  (0x46, OpCode.mk Instruction.LSR 2 5 AddressingMode.ZeroPage),
  (0x56, OpCode.mk Instruction.LSR 2 6 AddressingMode.ZeroPageX),
  (0x4E, OpCode.mk Instruction.LSR 3 6 AddressingMode.Absolute),
  (0x5E, OpCode.mk Instruction.LSR 3 7 AddressingMode.AbsoluteX),
  (0x2A, OpCode.mk Instruction.ROLA 1 2 AddressingMode.Implicit),
  (0x26, OpCode.mk Instruction.ROL 2 5 AddressingMode.ZeroPage),
  (0x36, OpCode.mk Instruction.ROL 2 6 AddressingMode.ZeroPageX),
  (0x2E, OpCode.mk Instruction.ROL 3 6 AddressingMode.Absolute),
  (0x3E, OpCode.mk Instruction.ROL 3 7 AddressingMode.AbsoluteX),
  (0x6A, OpCode.mk Instruction.RORA 1 2 AddressingMode.Implicit),
  (0x66, OpCode.mk Instruction.ROR 2 5 AddressingMode.ZeroPage),
  (0x76, OpCode.mk Instruction.ROR 2 6 AddressingMode.ZeroPageX),
  (0x6E, OpCode.mk Instruction.ROR 3 6 AddressingMode.Absolute),
  (0x7E, OpCode.mk Instruction.ROR 3 7 AddressingMode.AbsoluteX)]

/-! ## The run loop (cpu.rs `run`) modelled as a step function -/

inductive CpuError where
  | memOutOfBounds
  | illegalOpcode (b : Nat)
  | notImplemented
deriving DecidableEq

inductive StepOutcome where
  | next (s : CPU)
  | halt (s : CPU)
  | err (e : CpuError)

/-- Advance the program counter by `bytes - 1` after executing, as the run
loop does for every instruction other than BRK. -/
def stepNext (s' : CPU) (opcode : OpCode) : StepOutcome :=
  .next { s' with program_counter := (s'.program_counter + (opcode.bytes - 1)) % 65536 }

/-- Same, for instruction bodies that can abort on an out-of-bounds memory
access. -/
def stepNextM (r : Option CPU) (opcode : OpCode) : StepOutcome :=
  match r with
  | none => .err .memOutOfBounds
  | some s' => stepNext s' opcode

/-- One dispatch of the `match opcode.instruction` block of `run`, for a
state whose program counter has already been advanced past the opcode byte.
The `ADC` arm calls `adc`, whose body is `todo!("")` and therefore aborts;
the `BRK` arm returns from `run` before the final program-counter
adjustment.  (The source match also names flag and compare instructions,
but those variants do not exist in the `Instruction` enum of opcodes.rs and
no table entry produces them.) -/
def execInstr (s : CPU) (opcode : OpCode) : StepOutcome :=
  match opcode.instruction with
  | .ADC => .err .notImplemented
  | .BRK => .halt s
  | .TAX => stepNext (s.tax opcode.addressing_mode) opcode
  | .TAY => stepNext (s.tay opcode.addressing_mode) opcode
  | .TSX => stepNext (s.tsx opcode.addressing_mode) opcode
  | .TXA => stepNext (s.txa opcode.addressing_mode) opcode
  | .TXS => stepNext (s.txs opcode.addressing_mode) opcode
  | .TYA => stepNext (s.tya opcode.addressing_mode) opcode
  | .LDA => stepNextM (s.lda opcode.addressing_mode) opcode
  | .LDX => stepNextM (s.ldx opcode.addressing_mode) opcode
  | .LDY => stepNextM (s.ldy opcode.addressing_mode) opcode
  | .STA => stepNextM (s.sta opcode.addressing_mode) opcode
  | .STX => stepNextM (s.stx opcode.addressing_mode) opcode
  | .STY => stepNextM (s.sty opcode.addressing_mode) opcode
  | .PHA => stepNextM (s.pha opcode.addressing_mode) opcode
  | .PHP => stepNextM (s.php opcode.addressing_mode) opcode
  | .PLA => stepNextM (s.pla opcode.addressing_mode) opcode
  | .PLP => stepNextM (s.plp opcode.addressing_mode) opcode
  | .DEC => stepNextM (s.dec opcode.addressing_mode) opcode
  | .DEX => stepNext (s.dex opcode.addressing_mode) opcode
  | .DEY => stepNext (s.dey opcode.addressing_mode) opcode
  | .INC => stepNextM (s.inc opcode.addressing_mode) opcode
  | .INX => stepNext (s.inx opcode.addressing_mode) opcode
  | .INY => stepNext (s.iny opcode.addressing_mode) opcode
  | .AND => stepNextM (s.and opcode.addressing_mode) opcode
  | .EOR => stepNextM (s.eor opcode.addressing_mode) opcode
  | .ORA => stepNextM (s.ora opcode.addressing_mode) opcode
  | .ASL => stepNextM (s.asl opcode.addressing_mode) opcode
  | .ASLA => stepNext (s.asla opcode.addressing_mode) opcode
  | .LSR => stepNextM (s.lsr opcode.addressing_mode) opcode
  | .LSRA => stepNext (s.lsra opcode.addressing_mode) opcode
  | .ROL => stepNextM (s.rol opcode.addressing_mode) opcode
  | .ROLA => stepNext (s.rola opcode.addressing_mode) opcode
  | .ROR => stepNextM (s.ror opcode.addressing_mode) opcode
  | .RORA => stepNext (s.rora opcode.addressing_mode) opcode

/-- Table lookup of one fetched opcode byte; an unknown byte is the fatal
IllegalOpcode abort. -/
def stepDecoded (s : CPU) (opcode_byte : Nat) : StepOutcome :=
  match OPCODES.lookup opcode_byte with
  | none => .err (.illegalOpcode opcode_byte)
  | some opcode => execInstr s opcode

/-- One iteration of the `run` loop: fetch the opcode byte at PC, advance PC
by one, look the byte up and execute. -/
def CPU.step (s : CPU) : StepOutcome :=
  match s.mem_read s.program_counter with
  | none => .err .memOutOfBounds
  | some opcode_byte =>
    stepDecoded { s with program_counter := (s.program_counter + 1) % 65536 } opcode_byte

inductive RunResult where
  | halted (s : CPU)
  | fatal (e : CpuError)
  | fuelExhausted

/-- Fuelled iteration of the `run` loop. -/
def CPU.runFuel : Nat → CPU → RunResult
  | 0, _ => .fuelExhausted
  | fuel + 1, s =>
    match s.step with
    | .next s' => CPU.runFuel fuel s'
    | .halt s' => .halted s'
    | .err e => .fatal e

def RunResult.fatalError : RunResult → Option CpuError
  | .fatal e => some e
  | _ => none

/-! ## Program-counter preservation of the instruction bodies (for C4) -/

theorem uznf_pc (t : CPU) (r : Nat) :
    (t.update_z_and_n_flags r).program_counter = t.program_counter := by
  unfold CPU.update_z_and_n_flags CPU.update_n_flag CPU.update_z_flag
  split <;> split <;> rfl

theorem mem_write_pc {s s' : CPU} {a d : Nat} (h : s.mem_write a d = some s') :
    s'.program_counter = s.program_counter := by
  unfold CPU.mem_write at h
  split at h
  · cases h; rfl
  · exact Option.noConfusion h

theorem stack_push_pc {s s' : CPU} {d : Nat} (h : s.stack_push d = some s') :
    s'.program_counter = s.program_counter := by
  unfold CPU.stack_push at h
  rcases Option.map_eq_some'.mp h with ⟨u, hw, hf⟩
  have hu := mem_write_pc hw
  simpa [hu] using congrArg CPU.program_counter hf.symm

theorem stack_pop_pc {s t : CPU} {v : Nat} (h : s.stack_pop = some (v, t)) :
    t.program_counter = s.program_counter := by
  unfold CPU.stack_pop at h
  rcases Option.map_eq_some'.mp h with ⟨u, _, hf⟩
  cases hf
  rfl

theorem tax_pc (s : CPU) (m : AddressingMode) :
    (s.tax m).program_counter = s.program_counter := by
  unfold CPU.tax; rw [uznf_pc]

theorem tay_pc (s : CPU) (m : AddressingMode) :
    (s.tay m).program_counter = s.program_counter := by
  unfold CPU.tay; rw [uznf_pc]

theorem tsx_pc (s : CPU) (m : AddressingMode) :
    (s.tsx m).program_counter = s.program_counter := by
  unfold CPU.tsx; rw [uznf_pc]

theorem txa_pc (s : CPU) (m : AddressingMode) :
    (s.txa m).program_counter = s.program_counter := by
  unfold CPU.txa; rw [uznf_pc]

theorem txs_pc (s : CPU) (m : AddressingMode) :
    (s.txs m).program_counter = s.program_counter := by
  unfold CPU.txs; rw [uznf_pc]

theorem tya_pc (s : CPU) (m : AddressingMode) :
    (s.tya m).program_counter = s.program_counter := by
  unfold CPU.tya; rw [uznf_pc]

theorem dex_pc (s : CPU) (m : AddressingMode) :
    (s.dex m).program_counter = s.program_counter := by
  unfold CPU.dex; rw [uznf_pc]

theorem dey_pc (s : CPU) (m : AddressingMode) :
    (s.dey m).program_counter = s.program_counter := by
  unfold CPU.dey; rw [uznf_pc]

theorem inx_pc (s : CPU) (m : AddressingMode) :
    (s.inx m).program_counter = s.program_counter := by
  unfold CPU.inx; rw [uznf_pc]

theorem iny_pc (s : CPU) (m : AddressingMode) :
    (s.iny m).program_counter = s.program_counter := by
  unfold CPU.iny; rw [uznf_pc]

theorem asla_pc (s : CPU) (m : AddressingMode) :
    (s.asla m).program_counter = s.program_counter := by
  unfold CPU.asla
  split <;> rw [uznf_pc]

theorem lsra_pc (s : CPU) (m : AddressingMode) :
    (s.lsra m).program_counter = s.program_counter := by
  unfold CPU.lsra
  split <;> rw [uznf_pc]

theorem rola_pc (s : CPU) (m : AddressingMode) :
    (s.rola m).program_counter = s.program_counter := by
  unfold CPU.rola
  split <;> rw [uznf_pc]

theorem rora_pc (s : CPU) (m : AddressingMode) :
    (s.rora m).program_counter = s.program_counter := by
  unfold CPU.rora
  split <;> rw [uznf_pc]

theorem lda_pc {s s' : CPU} {m : AddressingMode} (h : s.lda m = some s') :
    s'.program_counter = s.program_counter := by
  unfold CPU.lda at h
  rcases Option.map_eq_some'.mp h with ⟨v, _, hf⟩
  simpa [uznf_pc] using congrArg CPU.program_counter hf.symm

theorem ldx_pc {s s' : CPU} {m : AddressingMode} (h : s.ldx m = some s') :
    s'.program_counter = s.program_counter := by
  unfold CPU.ldx at h
  rcases Option.map_eq_some'.mp h with ⟨v, _, hf⟩
  simpa [uznf_pc] using congrArg CPU.program_counter hf.symm

theorem ldy_pc {s s' : CPU} {m : AddressingMode} (h : s.ldy m = some s') :
    s'.program_counter = s.program_counter := by
  unfold CPU.ldy at h
  rcases Option.map_eq_some'.mp h with ⟨v, _, hf⟩
  simpa [uznf_pc] using congrArg CPU.program_counter hf.symm

theorem and_pc {s s' : CPU} {m : AddressingMode} (h : s.and m = some s') :
    s'.program_counter = s.program_counter := by
  unfold CPU.and at h
  rcases Option.map_eq_some'.mp h with ⟨v, _, hf⟩
  simpa [uznf_pc] using congrArg CPU.program_counter hf.symm

theorem eor_pc {s s' : CPU} {m : AddressingMode} (h : s.eor m = some s') :
    s'.program_counter = s.program_counter := by
  unfold CPU.eor at h
  rcases Option.map_eq_some'.mp h with ⟨v, _, hf⟩
  simpa [uznf_pc] using congrArg CPU.program_counter hf.symm

theorem ora_pc {s s' : CPU} {m : AddressingMode} (h : s.ora m = some s') :
    s'.program_counter = s.program_counter := by
  unfold CPU.ora at h
  rcases Option.map_eq_some'.mp h with ⟨v, _, hf⟩
  simpa [uznf_pc] using congrArg CPU.program_counter hf.symm

theorem sta_pc {s s' : CPU} {m : AddressingMode} (h : s.sta m = some s') :
    s'.program_counter = s.program_counter := by
  unfold CPU.sta at h
  simp only [Option.bind_eq_bind] at h
  rcases Option.bind_eq_some.mp h with ⟨a, _, hw⟩
  exact mem_write_pc hw

theorem stx_pc {s s' : CPU} {m : AddressingMode} (h : s.stx m = some s') :
    s'.program_counter = s.program_counter := by
  unfold CPU.stx at h
  simp only [Option.bind_eq_bind] at h
  rcases Option.bind_eq_some.mp h with ⟨a, _, hw⟩
  exact mem_write_pc hw

theorem sty_pc {s s' : CPU} {m : AddressingMode} (h : s.sty m = some s') :
    s'.program_counter = s.program_counter := by
  unfold CPU.sty at h
  simp only [Option.bind_eq_bind] at h
  rcases Option.bind_eq_some.mp h with ⟨a, _, hw⟩
  exact mem_write_pc hw

theorem pha_pc {s s' : CPU} {m : AddressingMode} (h : s.pha m = some s') :
    s'.program_counter = s.program_counter := by
  unfold CPU.pha at h
  exact stack_push_pc h

theorem php_pc {s s' : CPU} {m : AddressingMode} (h : s.php m = some s') :
    s'.program_counter = s.program_counter := by
  unfold CPU.php at h
  exact stack_push_pc h

theorem pla_pc {s s' : CPU} {m : AddressingMode} (h : s.pla m = some s') :
    s'.program_counter = s.program_counter := by
  unfold CPU.pla at h
  rcases Option.map_eq_some'.mp h with ⟨⟨v, u⟩, hp, hf⟩
  have hu := stack_pop_pc hp
  simpa [uznf_pc, hu] using congrArg CPU.program_counter hf.symm

theorem plp_pc {s s' : CPU} {m : AddressingMode} (h : s.plp m = some s') :
    s'.program_counter = s.program_counter := by
  unfold CPU.plp at h
  simp only [Option.bind_eq_bind, Option.pure_def] at h
  rcases Option.bind_eq_some.mp h with ⟨⟨v, u⟩, hp, h2⟩
  rcases Option.bind_eq_some.mp h2 with ⟨st, _, h3⟩
  cases h3
  show u.program_counter = s.program_counter
  exact stack_pop_pc hp

theorem dec_pc {s s' : CPU} {m : AddressingMode} (h : s.dec m = some s') :
    s'.program_counter = s.program_counter := by
  unfold CPU.dec at h
  simp only [Option.bind_eq_bind, Option.pure_def] at h
  rcases Option.bind_eq_some.mp h with ⟨a, _, h2⟩
  rcases Option.bind_eq_some.mp h2 with ⟨v, _, h3⟩
  rcases Option.bind_eq_some.mp h3 with ⟨u, hw, h4⟩
  cases h4
  rw [uznf_pc]
  exact mem_write_pc hw

theorem inc_pc {s s' : CPU} {m : AddressingMode} (h : s.inc m = some s') :
    s'.program_counter = s.program_counter := by
  unfold CPU.inc at h
  simp only [Option.bind_eq_bind, Option.pure_def] at h
  rcases Option.bind_eq_some.mp h with ⟨a, _, h2⟩
  rcases Option.bind_eq_some.mp h2 with ⟨v, _, h3⟩
  rcases Option.bind_eq_some.mp h3 with ⟨u, hw, h4⟩
  cases h4
  rw [uznf_pc]
  exact mem_write_pc hw

theorem asl_pc {s s' : CPU} {m : AddressingMode} (h : s.asl m = some s') :
    s'.program_counter = s.program_counter := by
  unfold CPU.asl at h
  simp only [Option.bind_eq_bind, Option.pure_def] at h
  rcases Option.bind_eq_some.mp h with ⟨a, _, h2⟩
  rcases Option.bind_eq_some.mp h2 with ⟨v, _, h3⟩
  rcases Option.bind_eq_some.mp h3 with ⟨u, hw, h4⟩
  cases h4
  rw [uznf_pc]
  have := mem_write_pc hw
  rw [this]
  split <;> rfl

theorem lsr_pc {s s' : CPU} {m : AddressingMode} (h : s.lsr m = some s') :
    s'.program_counter = s.program_counter := by
  unfold CPU.lsr at h
  simp only [Option.bind_eq_bind, Option.pure_def] at h
  rcases Option.bind_eq_some.mp h with ⟨a, _, h2⟩
  rcases Option.bind_eq_some.mp h2 with ⟨v, _, h3⟩
  rcases Option.bind_eq_some.mp h3 with ⟨u, hw, h4⟩
  cases h4
  rw [uznf_pc]
  have := mem_write_pc hw
  rw [this]
  split <;> rfl

theorem rol_pc {s s' : CPU} {m : AddressingMode} (h : s.rol m = some s') :
    s'.program_counter = s.program_counter := by
  unfold CPU.rol at h
  simp only [Option.bind_eq_bind, Option.pure_def] at h
  rcases Option.bind_eq_some.mp h with ⟨a, _, h2⟩
  rcases Option.bind_eq_some.mp h2 with ⟨v, _, h3⟩
  rcases Option.bind_eq_some.mp h3 with ⟨u, hw, h4⟩
  cases h4
  rw [uznf_pc]
  have := mem_write_pc hw
  rw [this]
  split <;> rfl

theorem ror_pc {s s' : CPU} {m : AddressingMode} (h : s.ror m = some s') :
    s'.program_counter = s.program_counter := by
  unfold CPU.ror at h
  simp only [Option.bind_eq_bind, Option.pure_def] at h
  rcases Option.bind_eq_some.mp h with ⟨a, _, h2⟩
  rcases Option.bind_eq_some.mp h2 with ⟨v, _, h3⟩
  rcases Option.bind_eq_some.mp h3 with ⟨u, hw, h4⟩
  cases h4
  rw [uznf_pc]
  have := mem_write_pc hw
  rw [this]
  split <;> rfl

/-! ## Theorems for C4 (PC advance) and C1 (ADC stub) -/

theorem stepNext_pc {u t : CPU} {op : OpCode} {p : Nat}
    (h : stepNext u op = StepOutcome.next t) (hpres : u.program_counter = p) :
    t.program_counter = (p + (op.bytes - 1)) % 65536 := by
  unfold stepNext at h
  cases h
  simp [hpres]

theorem stepNextM_pc {r : Option CPU} {op : OpCode} {t : CPU} {p : Nat}
    (h : stepNextM r op = StepOutcome.next t)
    (hpres : ∀ u, r = some u → u.program_counter = p) :
    t.program_counter = (p + (op.bytes - 1)) % 65536 := by
  unfold stepNextM at h
  cases r with
  | none => exact StepOutcome.noConfusion h
  | some u => exact stepNext_pc h (hpres u rfl)

/-- Executing any dispatched instruction that completes normally leaves the
program counter at (pc before the dispatch) + (bytes - 1), mod 2^16. -/
theorem execInstr_pc (s t : CPU) (op : OpCode)
    (h : execInstr s op = StepOutcome.next t) :
    t.program_counter = (s.program_counter + (op.bytes - 1)) % 65536 := by
  unfold execInstr at h
  split at h
  · exact StepOutcome.noConfusion h
  · exact StepOutcome.noConfusion h
  · exact stepNext_pc h (tax_pc s _)
  · exact stepNext_pc h (tay_pc s _)
  · exact stepNext_pc h (tsx_pc s _)
  · exact stepNext_pc h (txa_pc s _)
  · exact stepNext_pc h (txs_pc s _)
  · exact stepNext_pc h (tya_pc s _)
  · exact stepNextM_pc h (fun u hu => lda_pc hu)
  · exact stepNextM_pc h (fun u hu => ldx_pc hu)
  · exact stepNextM_pc h (fun u hu => ldy_pc hu)
  · exact stepNextM_pc h (fun u hu => sta_pc hu)
  · exact stepNextM_pc h (fun u hu => stx_pc hu)
  · exact stepNextM_pc h (fun u hu => sty_pc hu)
  · exact stepNextM_pc h (fun u hu => pha_pc hu)
  · exact stepNextM_pc h (fun u hu => php_pc hu)
  · exact stepNextM_pc h (fun u hu => pla_pc hu)
  · exact stepNextM_pc h (fun u hu => plp_pc hu)
  · exact stepNextM_pc h (fun u hu => dec_pc hu)
  · exact stepNext_pc h (dex_pc s _)
  · exact stepNext_pc h (dey_pc s _)
  · exact stepNextM_pc h (fun u hu => inc_pc hu)
  · exact stepNext_pc h (inx_pc s _)
  · exact stepNext_pc h (iny_pc s _)
  · exact stepNextM_pc h (fun u hu => and_pc hu)
  · exact stepNextM_pc h (fun u hu => eor_pc hu)
  · exact stepNextM_pc h (fun u hu => ora_pc hu)
  · exact stepNextM_pc h (fun u hu => asl_pc hu)
  · exact stepNext_pc h (asla_pc s _)
  · exact stepNextM_pc h (fun u hu => lsr_pc hu)
  · exact stepNext_pc h (lsra_pc s _)
  · exact stepNextM_pc h (fun u hu => rol_pc hu)
  · exact stepNext_pc h (rola_pc s _)
  · exact stepNextM_pc h (fun u hu => ror_pc hu)
  · exact stepNext_pc h (rora_pc s _)

/-- Every value stored in the opcode table has byte length 1, 2, or 3. -/
theorem opcodes_bytes_small :
    ∀ q ∈ OPCODES, q.2.bytes = 1 ∨ q.2.bytes = 2 ∨ q.2.bytes = 3 := by
  decide

/-- A successful association-list lookup returns a stored value. -/
theorem lookup_pred {β : Type} (p : β → Prop) :
    ∀ (l : List (Nat × β)) (k : Nat) (v : β),
      (∀ q ∈ l, p q.2) → l.lookup k = some v → p v := by
  intro l
  induction l with
  | nil => intro k v _ h; simp [List.lookup] at h
  | cons head tail ih =>
    intro k v hall h
    cases head with
    | mk k' v' =>
      rw [List.lookup_cons] at h
      split at h
      · cases h
        exact hall (k', v) (by simp)
      · exact ih k v (fun q hq => hall q (by simp [hq])) h

/-- C4: for every state and every opcode the interpreter dispatches whose
body completes normally (which excludes only BRK, which halts, and ADC,
whose body is an unimplemented stub), one step leaves the program counter
at its value before the fetch plus the opcode's byte length (1, 2, or 3). -/
theorem step_pc_advance (s s' : CPU) (b : Nat) (op : OpCode)
    (hb : s.mem_read s.program_counter = some b)
    (hop : OPCODES.lookup b = some op)
    (hbound : s.program_counter + op.bytes ≤ 0xFFFF)
    (hstep : s.step = StepOutcome.next s') :
    s'.program_counter = s.program_counter + op.bytes ∧
    (op.bytes = 1 ∨ op.bytes = 2 ∨ op.bytes = 3) := by
  have hbytes : op.bytes = 1 ∨ op.bytes = 2 ∨ op.bytes = 3 :=
    lookup_pred (fun o => o.bytes = 1 ∨ o.bytes = 2 ∨ o.bytes = 3)
      OPCODES b op opcodes_bytes_small hop
  have hpc : s.program_counter < 0xFFFF := by
    by_contra hge
    rw [CPU.mem_read, if_neg hge] at hb
    exact Option.noConfusion hb
  refine ⟨?_, hbytes⟩
  unfold CPU.step at hstep
  rw [hb] at hstep
  have hstep' : stepDecoded
      { s with program_counter := (s.program_counter + 1) % 65536 } b =
      StepOutcome.next s' := hstep
  unfold stepDecoded at hstep'
  rw [hop] at hstep'
  have hstep'' : execInstr
      { s with program_counter := (s.program_counter + 1) % 65536 } op =
      StepOutcome.next s' := hstep'
  have h2 := execInstr_pc _ _ _ hstep''
  simp only at h2
  rw [h2]
  rcases hbytes with h1 | h1 | h1 <;> rw [h1] <;> omega

/-- Concrete state for the C4 witness: a TAX instruction (0xAA) at PC 0. -/
def cpuC4 : CPU :=
  { register_a := 7, register_x := 0, register_y := 0, status := 0,
    stack_pointer := 0xFF, program_counter := 0,
    memory := fun a => if a = 0 then 0xAA else 0 }

/-- The state the step function produces from `cpuC4`. -/
def cpuC4next : CPU :=
  { (CPU.tax { cpuC4 with program_counter := (cpuC4.program_counter + 1) % 65536 }
      AddressingMode.Implicit) with
    program_counter :=
      ((CPU.tax { cpuC4 with program_counter := (cpuC4.program_counter + 1) % 65536 }
          AddressingMode.Implicit).program_counter + (1 - 1)) % 65536 }

/-- C4 witness: `step_pc_advance` at `cpuC4` executing TAX. -/
theorem step_pc_advance_witness :
    cpuC4.mem_read cpuC4.program_counter = some 0xAA ∧
    OPCODES.lookup 0xAA =
      some (OpCode.mk Instruction.TAX 1 2 AddressingMode.Implicit) ∧
    cpuC4.program_counter + 1 ≤ 0xFFFF ∧
    cpuC4.step = StepOutcome.next cpuC4next ∧
    (cpuC4next.program_counter = cpuC4.program_counter + 1 ∧
      ((1 : Nat) = 1 ∨ (1 : Nat) = 2 ∨ (1 : Nat) = 3)) :=
  ⟨rfl, by decide, by decide, rfl,
    step_pc_advance cpuC4 cpuC4next 0xAA
      (OpCode.mk Instruction.TAX 1 2 AddressingMode.Implicit)
      rfl (by decide) (by decide) rfl⟩

/-- Load a program and reset, as `load_and_run` does before running. -/
def cpuAfterLoadReset (program : List Nat) : Option CPU :=
  (CPU.new.load program).bind CPU.reset

/-- C1: running the program `69 50 00` (ADC #$50 then BRK) from reset with
A set to 0x50 does not terminate normally at the BRK: the very first
instruction dispatches to `adc`, whose body is `todo!("")`, so execution
aborts instead of producing A=0xA0, C=0, V=1, N=1, Z=0. -/
theorem adc_unimplemented_code_bug :
    (cpuAfterLoadReset [0x69, 0x50, 0x00]).map
      (fun s => (CPU.runFuel 8 { s with register_a := 0x50 }).fatalError) =
    some (some CpuError.notImplemented) := by
  rfl

/-! ## Bus, cartridge and PPU (bus.rs; ppu.rs is a stub in the source) -/

/-- Modelled from the spec: cartridge mirroring modes (the `cartridge`
module referenced by bus.rs is not in the source tree). -/
inductive ScreenMirroring where
  | Horizontal
  | Vertical
  | FourScreen
deriving DecidableEq

/-- Modelled from the spec: the cartridge as used by bus.rs — PRG-ROM bytes,
CHR-ROM bytes, and the mirroring mode. -/
structure Cartridge where
  prg_rom : List Nat
  chr_rom : List Nat
  screen_mirroring : ScreenMirroring

/-- Modelled from the spec: PPU register file and memories.  ppu.rs in the
source only holds the data fields and the address-register write; the
register read/write entry points that bus.rs calls are absent, so they are
modelled from the spec (§4.4). -/
structure PPU where
  chr_rom : List Nat
  palette_table : Nat → Nat
  vram : Nat → Nat
  oam_data : Nat → Nat
  oam_addr : Nat
  status : Nat
  ctrl : Nat
  mask : Nat
  scroll_x : Nat
  scroll_y : Nat
  addr_latch_hi : Bool
  vram_addr : Nat
  data_buffer : Nat
  nmi_interrupt : Option Nat
  mirroring : ScreenMirroring

def PPU.new (chr : List Nat) (mir : ScreenMirroring) : PPU :=
  { chr_rom := chr, palette_table := fun _ => 0, vram := fun _ => 0,
    oam_data := fun _ => 0, oam_addr := 0, status := 0, ctrl := 0, mask := 0,
    scroll_x := 0, scroll_y := 0, addr_latch_hi := true, vram_addr := 0,
    data_buffer := 0, nmi_interrupt := none, mirroring := mir }

/-- Modelled from the spec: a PPU with no cartridge attached
(`PPU::new_empty_rom`). -/
def PPU.new_empty_rom : PPU := PPU.new [] ScreenMirroring.Vertical

/-- Modelled from the spec: nametable mirroring (§4.4). -/
def PPU.mirror_vram_addr (p : PPU) (addr : Nat) : Nat :=
  let index := (addr - 0x2000) &&& 0x0FFF
  let name_table := index / 0x400
  let offset := index % 0x400
  match p.mirroring, name_table with
  | ScreenMirroring.Horizontal, 0 => offset
  | ScreenMirroring.Horizontal, 1 => offset
  | ScreenMirroring.Horizontal, 2 => 0x400 + offset
  | ScreenMirroring.Horizontal, _ => 0x400 + offset
  | _, 0 => offset
  | _, 1 => 0x400 + offset
  | _, 2 => offset
  | _, _ => 0x400 + offset

/-- Modelled from the spec: one internal PPU-space read (pattern tables,
nametables, palette). -/
def PPU.internal_read (p : PPU) (addr : Nat) : Nat :=
  if addr < 0x2000 then p.chr_rom.getD addr 0
  else if addr < 0x3F00 then
    p.vram (p.mirror_vram_addr (0x2000 + (addr - 0x2000) % 0x1000))
  else p.palette_table ((addr - 0x3F00) % 32)

/-- Modelled from the spec: reading 0x2002 returns the status byte, clears
VBlank (bit 7) and resets the address latch. -/
def PPU.read_status (p : PPU) : Nat × PPU :=
  (p.status, { p with status := p.status &&& 0x7F, addr_latch_hi := true })

/-- Modelled from the spec: reading 0x2004 returns OAM at the OAM address. -/
def PPU.read_oam_data (p : PPU) : Nat :=
  p.oam_data p.oam_addr

/-- Modelled from the spec: the buffered data-port read at 0x2007, with the
per-access VRAM-address increment selected by Control bit 2. -/
def PPU.read_data (p : PPU) : Nat × PPU :=
  let addr := p.vram_addr % 0x4000
  let step := if p.ctrl.testBit 2 then 32 else 1
  let p' := { p with vram_addr := (p.vram_addr + step) % 0x4000 }
  if addr < 0x3F00 then
    (p.data_buffer, { p' with data_buffer := p.internal_read addr })
  else
    (p.palette_table ((addr - 0x3F00) % 32),
      { p' with data_buffer := p.internal_read (addr - 0x1000) })

/-- Modelled from the spec: writing Control; a write that newly sets bit 7
while VBlank is set raises an NMI immediately. -/
def PPU.write_to_ctrl (p : PPU) (v : Nat) : PPU :=
  let before := p.ctrl.testBit 7
  let p' := { p with ctrl := v }
  if ¬ before ∧ v.testBit 7 ∧ p.status.testBit 7 then
    { p' with nmi_interrupt := some 1 }
  else p'

/-- Modelled from the spec: writing Mask. -/
def PPU.write_to_mask (p : PPU) (v : Nat) : PPU := { p with mask := v }

/-- Modelled from the spec: writing the OAM address. -/
def PPU.write_to_oam_addr (p : PPU) (v : Nat) : PPU := { p with oam_addr := v }

/-- Modelled from the spec: writing OAM data at the OAM address, with
post-increment. -/
def PPU.write_to_oam_data (p : PPU) (v : Nat) : PPU :=
  { p with oam_data := fun a => if a = p.oam_addr then v else p.oam_data a,
           oam_addr := (p.oam_addr + 1) % 256 }

/-- Modelled from the spec: the double-write Scroll register sharing the
address latch. -/
def PPU.write_to_scroll (p : PPU) (v : Nat) : PPU :=
  if p.addr_latch_hi then { p with scroll_x := v, addr_latch_hi := false }
  else { p with scroll_y := v, addr_latch_hi := true }

/-- Modelled from the spec: the double-write Address register (high 6 bits
first, then the low byte). -/
def PPU.write_to_ppu_addr_reg (p : PPU) (v : Nat) : PPU :=
  if p.addr_latch_hi then
    { p with vram_addr := ((v &&& 0x3F) <<< 8) ||| (p.vram_addr &&& 0xFF),
             addr_latch_hi := false }
  else
    { p with vram_addr := (p.vram_addr &&& 0x3F00) ||| (v &&& 0xFF),
             addr_latch_hi := true }

/-- Modelled from the spec: one internal PPU-space write (CHR writes are
ignored; palette indices 0x10/14/18/1C alias 0x00/04/08/0C). -/
def PPU.internal_write (p : PPU) (addr v : Nat) : PPU :=
  if addr < 0x2000 then p
  else if addr < 0x3F00 then
    let i := p.mirror_vram_addr (0x2000 + (addr - 0x2000) % 0x1000)
    { p with vram := fun a => if a = i then v else p.vram a }
  else
    let i := (addr - 0x3F00) % 32
    let i := if i = 0x10 ∨ i = 0x14 ∨ i = 0x18 ∨ i = 0x1C then i - 0x10 else i
    { p with palette_table := fun a => if a = i then v else p.palette_table a }

/-- Modelled from the spec: the data-port write at 0x2007 with the
per-access VRAM-address increment. -/
def PPU.write_to_data (p : PPU) (v : Nat) : PPU :=
  let addr := p.vram_addr % 0x4000
  let step := if p.ctrl.testBit 2 then 32 else 1
  { p.internal_write addr v with vram_addr := (p.vram_addr + step) % 0x4000 }

structure Bus where
  cpu_vram : Nat → Nat
  cartridge : Option Cartridge
  ppu : PPU
  cycles : Nat

/-- `Bus::new`. -/
def Bus.new (cartridge : Option Cartridge) : Bus :=
  { cpu_vram := fun _ => 0, cartridge := cartridge,
    ppu := match cartridge with
      | some c => PPU.new c.chr_rom c.screen_mirroring
      | none => PPU.new_empty_rom,
    cycles := 0 }

/-- `read_prg_rom`: subtract 0x8000, mirror a 16 KiB cartridge, and index
the PRG image; indexing out of range aborts (modelled as `none`). -/
def Bus.read_prg_rom (b : Bus) (addr : Nat) : Option Nat :=
  let addr := addr - 0x8000
  match b.cartridge with
  | some c =>
    let addr :=
      if c.prg_rom.length = 0x4000 ∧ addr ≥ 0x4000 then addr % 0x4000 else addr
    c.prg_rom.get? addr
  | none => some 0

inductive BusError where
  | readWriteOnly (addr : Nat)
  | writeToStatus
  | writeToRom (addr : Nat)
  | prgOutOfRange
deriving DecidableEq

/-- `mem_read` of the Bus: the match arms of the source in order.  RAM
accesses mask the address down to the 2 KiB window; 0x2008–0x3FFF mirrors
down to the eight PPU registers and recurses; reads of write-only
registers abort; unmapped regions read 0. -/
def Bus.mem_read (b : Bus) (addr : Nat) : Except BusError (Nat × Bus) :=
  if addr ≤ 0x1FFF then
    .ok (b.cpu_vram (addr &&& 0b0000011111111111), b)
  else if addr = 0x2000 ∨ addr = 0x2001 ∨ addr = 0x2003 ∨ addr = 0x2005 ∨
      addr = 0x2006 ∨ addr = 0x4014 then
    .error (.readWriteOnly addr)
  else if addr = 0x2002 then
    let (v, p) := b.ppu.read_status
    .ok (v, { b with ppu := p })
  else if addr = 0x2004 then
    .ok (b.ppu.read_oam_data, b)
  else if addr = 0x2007 then
    let (v, p) := b.ppu.read_data
    .ok (v, { b with ppu := p })
  else if h : 0x2008 ≤ addr ∧ addr ≤ 0x3FFF then
    Bus.mem_read b (addr &&& 0b0010000000000111)
  else if 0x8000 ≤ addr ∧ addr ≤ 0xFFFF then
    match b.read_prg_rom addr with
    | some v => .ok (v, b)
    | none => .error .prgOutOfRange
  else
    .ok (0, b)
termination_by addr
decreasing_by
  have hle : addr &&& 0b0010000000000111 ≤ 0b0010000000000111 := Nat.and_le_right
  omega

/-- `mem_write` of the Bus: the match arms of the source in order.  Writes
into 0x8000–0xFFFF (cartridge ROM) abort; unmapped regions ignore the
write. -/
def Bus.mem_write (b : Bus) (addr data : Nat) : Except BusError Bus :=
  if addr ≤ 0x1FFF then
    .ok { b with cpu_vram := fun a =>
            if a = (addr &&& 0b11111111111) then data else b.cpu_vram a }
  else if addr = 0x2000 then .ok { b with ppu := b.ppu.write_to_ctrl data }
  else if addr = 0x2001 then .ok { b with ppu := b.ppu.write_to_mask data }
  else if addr = 0x2002 then .error .writeToStatus
  else if addr = 0x2003 then .ok { b with ppu := b.ppu.write_to_oam_addr data }
  else if addr = 0x2004 then .ok { b with ppu := b.ppu.write_to_oam_data data }
  else if addr = 0x2005 then .ok { b with ppu := b.ppu.write_to_scroll data }
  else if addr = 0x2006 then .ok { b with ppu := b.ppu.write_to_ppu_addr_reg data }
  else if addr = 0x2007 then .ok { b with ppu := b.ppu.write_to_data data }
  else if h : 0x2008 ≤ addr ∧ addr ≤ 0x3FFF then
    Bus.mem_write b (addr &&& 0b0010000000000111) data
  else if 0x8000 ≤ addr ∧ addr ≤ 0xFFFF then
    .error (.writeToRom addr)
  else
    .ok b
termination_by addr
decreasing_by
  have hle : addr &&& 0b0010000000000111 ≤ 0b0010000000000111 := Nat.and_le_right
  omega

/-! ## Theorems for C5 (RAM mirroring) and C6 (ROM writes) -/

/-- C5: for every address below 0x2000, a bus read returns the same byte as
a read at `addr &&& 0x07FF`, and a bus write stores to the same 2 KiB RAM
cell as a write at `addr &&& 0x07FF`. -/
theorem bus_ram_mirror (b : Bus) (a d : Nat) (ha : a < 0x2000) :
    b.mem_read a = b.mem_read (a &&& 0x07FF) ∧
    b.mem_write a d = b.mem_write (a &&& 0x07FF) d := by
  have h1 : a &&& 0x7FF ≤ 0x7FF := Nat.and_le_right
  have hassoc : (a &&& 0x7FF) &&& 0x7FF = a &&& 0x7FF := by
    rw [Nat.land_assoc, Nat.and_self]
  constructor
  · conv_lhs => rw [Bus.mem_read.eq_def]
    conv_rhs => rw [Bus.mem_read.eq_def]
    rw [if_pos (show a ≤ 0x1FFF by omega),
      if_pos (show a &&& 0x7FF ≤ 0x1FFF by omega), hassoc]
  · conv_lhs => rw [Bus.mem_write.eq_def]
    conv_rhs => rw [Bus.mem_write.eq_def]
    rw [if_pos (show a ≤ 0x1FFF by omega),
      if_pos (show a &&& 0x7FF ≤ 0x1FFF by omega), hassoc]

/-- C5 witness: `bus_ram_mirror` at address 0x0801 on a fresh bus. -/
theorem bus_ram_mirror_witness :
    (0x0801 : Nat) < 0x2000 ∧
    ((Bus.new none).mem_read 0x0801 =
        (Bus.new none).mem_read (0x0801 &&& 0x07FF) ∧
      (Bus.new none).mem_write 0x0801 5 =
        (Bus.new none).mem_write (0x0801 &&& 0x07FF) 5) :=
  ⟨by decide, bus_ram_mirror (Bus.new none) 0x0801 5 (by decide)⟩

/-- C6: every bus write into 0x8000–0xFFFF is the fatal WriteToRom abort; no
state is produced, so RAM, PPU and cartridge are untouched. -/
theorem bus_write_rom_fatal (b : Bus) (addr data : Nat)
    (h1 : 0x8000 ≤ addr) (h2 : addr ≤ 0xFFFF) :
    b.mem_write addr data = .error (BusError.writeToRom addr) := by
  rw [Bus.mem_write.eq_def]
  rw [if_neg (show ¬ addr ≤ 0x1FFF by omega),
    if_neg (show ¬ addr = 0x2000 by omega),
    if_neg (show ¬ addr = 0x2001 by omega),
    if_neg (show ¬ addr = 0x2002 by omega),
    if_neg (show ¬ addr = 0x2003 by omega),
    if_neg (show ¬ addr = 0x2004 by omega),
    if_neg (show ¬ addr = 0x2005 by omega),
    if_neg (show ¬ addr = 0x2006 by omega),
    if_neg (show ¬ addr = 0x2007 by omega),
    dif_neg (show ¬ (0x2008 ≤ addr ∧ addr ≤ 0x3FFF) by omega),
    if_pos ⟨h1, h2⟩]

/-- C6 witness: `bus_write_rom_fatal` at address 0x9000 on a fresh bus. -/
theorem bus_write_rom_fatal_witness :
    (0x8000 : Nat) ≤ 0x9000 ∧ (0x9000 : Nat) ≤ 0xFFFF ∧
    (Bus.new none).mem_write 0x9000 7 =
      .error (BusError.writeToRom 0x9000) :=
  ⟨by decide, by decide,
    bus_write_rom_fatal (Bus.new none) 0x9000 7 (by decide) (by decide)⟩

/-! ## Trace line register columns (tracer.rs) and C8 -/

/-- One uppercase hexadecimal digit. -/
def hexDigit (n : Nat) : Char :=
  if n < 10 then Char.ofNat (48 + n) else Char.ofNat (55 + n)

/-- Rust `{:02X}` formatting for the values that occur here (below 2^16):
uppercase hexadecimal, zero-padded to a minimum width of two digits. -/
def fmtHexUpper2 (n : Nat) : String :=
  if n < 0x10 then String.mk ['0', hexDigit n]
  else if n < 0x100 then String.mk [hexDigit (n / 16), hexDigit (n % 16)]
  else if n < 0x1000 then
    String.mk [hexDigit (n / 256), hexDigit (n / 16 % 16), hexDigit (n % 16)]
  else
    String.mk [hexDigit (n / 4096 % 16), hexDigit (n / 256 % 16),
      hexDigit (n / 16 % 16), hexDigit (n % 16)]

/-- The final fixed columns of the trace line (tracer.rs line 81): the
format string is `A:{:02X} X:{:02X} Y:{:02X} P:{:02X} SP:{:02X}` and the
arguments passed are `register_a`, `register_x`, `register_y`, `status`
and `program_counter` — the last column is fed the program counter, not
the stack pointer. -/
def trace_register_columns (c : CPU) : String :=
  "A:" ++ fmtHexUpper2 c.register_a ++ " X:" ++ fmtHexUpper2 c.register_x ++
  " Y:" ++ fmtHexUpper2 c.register_y ++ " P:" ++ fmtHexUpper2 c.status ++
  " SP:" ++ fmtHexUpper2 c.program_counter

/-- Concrete CPU state for C8: stack pointer 0xFF, program counter 0x8000. -/
def cpuC8 : CPU :=
  { register_a := 0, register_x := 0, register_y := 0, status := 0,
    stack_pointer := 0xFF, program_counter := 0x8000, memory := fun _ => 0 }

/-- C8: the trace line's final columns print the program counter under the
`SP:` label instead of the stack pointer; with SP = 0xFF and PC = 0x8000
the line ends in `SP:8000`, not `SP:FF` as the claim (and the label)
require. -/
theorem trace_sp_column_code_bug :
    trace_register_columns cpuC8 = "A:00 X:00 Y:00 P:00 SP:8000" ∧
    trace_register_columns cpuC8 ≠
      "A:00 X:00 Y:00 P:00 SP:" ++ fmtHexUpper2 cpuC8.stack_pointer ∧
    fmtHexUpper2 cpuC8.stack_pointer = "FF" := by
  refine ⟨by decide, by decide, by decide⟩
